import Mathlib

/- Verification development for the model-graph construction code in
   src/nmt/model.py (classes BaseModel and Model).  The definitions below are a
   shallow embedding of the relevant pieces of that file: loss aggregation in
   BaseModel.build_graph, the optimizer/global-step wiring in BaseModel.__init__
   and BaseModel.train, variable scoping of BaseModel._build_discriminator, the
   trainable-parameter partition, BaseModel._compute_loss, the learning-rate
   schedule, the bidirectional encoder final state of Model._build_encoder, the
   configuration-error checks, and the attribute bookkeeping behind
   BaseModel.infer_and_source.  Machine floats are idealized as rationals or
   reals; tensors of per-token cross-entropy values are lists of rationals. -/

/-- The mode argument of BaseModel.__init__: tf.contrib.learn.ModeKeys. -/
inductive Mode
  | TRAIN
  | EVAL
  | INFER
  deriving DecidableEq

/-- The four encode/decode passes built by BaseModel.build_graph:
    s2s and t2t are the same-language (autoencoding) passes, s2t and t2s the
    cross-language passes. -/
inductive Pass
  | s2s
  | t2t
  | s2t
  | t2s
  deriving DecidableEq

/-- The constant discriminator label tensor chosen for each pass in
    build_graph (model.py lines 427-438): tf.zeros_like for s2s and s2t,
    tf.ones_like for t2t and t2s.  false stands for the all-zeros tensor and
    true for the all-ones tensor. -/
def d_label : Pass → Bool
  | .s2s => false
  | .s2t => false
  | .t2t => true
  | .t2s => true

/-- Abstract values of the two loss primitives used by build_graph:
    compute_loss p is the scalar value of self._compute_loss(logits_p,
    iterator_p), and compute_discriminator_loss p b is the scalar value of
    self._compute_discriminator_loss(discriminator_logits_p, labels) where the
    label tensor is all-b.  The flipped-label (1 - labels) call is the same
    function at the negated boolean. -/
structure LossInputs where
  compute_loss : Pass → ℚ
  compute_discriminator_loss : Pass → Bool → ℚ

/-- The pair (loss, loss_adv) returned by BaseModel.build_graph in TRAIN or
    EVAL mode (model.py lines 418-462): loss_adv = tf.add_n of the four
    flipped-label discriminator losses; loss = tf.add_n of loss_auto_total
    (s2s + t2t reconstruction), loss_D_total (the four plain discriminator
    losses) and loss_cross_total (s2t + t2s reconstruction). -/
def build_graph_losses (L : LossInputs) : ℚ × ℚ :=
  let loss_auto_s2s := L.compute_loss .s2s
  let loss_auto_t2t := L.compute_loss .t2t
  let loss_cross_s2t := L.compute_loss .s2t
  let loss_cross_t2s := L.compute_loss .t2s
  let loss_D_s2s := L.compute_discriminator_loss .s2s (d_label .s2s)
  let loss_D_s2t := L.compute_discriminator_loss .s2t (d_label .s2t)
  let loss_D_t2t := L.compute_discriminator_loss .t2t (d_label .t2t)
  let loss_D_t2s := L.compute_discriminator_loss .t2s (d_label .t2s)
  let loss_adv_s2s := L.compute_discriminator_loss .s2s (!d_label .s2s)
  let loss_adv_s2t := L.compute_discriminator_loss .s2t (!d_label .s2t)
  let loss_adv_t2t := L.compute_discriminator_loss .t2t (!d_label .t2t)
  let loss_adv_t2s := L.compute_discriminator_loss .t2s (!d_label .t2s)
  let loss_adv := loss_adv_s2s + loss_adv_s2t + loss_adv_t2t + loss_adv_t2s
  let loss_auto_total := loss_auto_s2s + loss_auto_t2t
  let loss_cross_total := loss_cross_s2t + loss_cross_t2s
  let loss_D_total := loss_D_s2s + loss_D_s2t + loss_D_t2t + loss_D_t2s
  let loss := loss_auto_total + loss_D_total + loss_cross_total
  (loss, loss_adv)

/-- BaseModel.__init__ line 132 unpacks build_graph as
    ..., train_loss_ae, train_loss_D = self.build_graph(...), so
    train_loss_ae receives the first loss component. -/
def train_loss_ae (L : LossInputs) : ℚ := (build_graph_losses L).1

/-- BaseModel.__init__ line 132: train_loss_D receives the second loss
    component (the loss_adv return value of build_graph). -/
def train_loss_D (L : LossInputs) : ℚ := (build_graph_losses L).2

/-- A concrete loss environment: all reconstruction losses 0; the plain-label
    discriminator loss of each pass is 1 and the flipped-label one is 0. -/
def ce_loss_inputs : LossInputs where
  compute_loss := fun _ => 0
  compute_discriminator_loss := fun p b => if b = d_label p then 1 else 0

/-- tf.train.Optimizer.apply_gradients: when a global_step variable is
    supplied, executing the returned op increments that variable by one. -/
def apply_gradients_step (global_step_supplied : Bool) (step : ℕ) : ℕ :=
  if global_step_supplied then step + 1 else step

/-- The update op built by the local function train_params in
    BaseModel.__init__ (model.py lines 193-194): apply_gradients is always
    called with global_step=self.global_step. -/
def train_params_update_step (step : ℕ) : ℕ := apply_gradients_step true step

/-- Effect of running self.update_ae on the global step
    (train_params(params_ae, train_loss_ae), model.py line 203). -/
def update_ae_step : ℕ → ℕ := train_params_update_step

/-- Effect of running self.update_D on the global step
    (train_params(params_D, train_loss_D), model.py line 204). -/
def update_D_step : ℕ → ℕ := train_params_update_step

/-- BaseModel.train (model.py lines 304-327) runs update_ae and then update_D
    in two consecutive session calls; this is the net effect on the global
    step of one train() call. -/
def train_global_step (step : ℕ) : ℕ := update_D_step (update_ae_step step)

/-- The three dense layers created inside BaseModel._build_discriminator
    (model.py lines 728-733). -/
def disc_layer_names : List String := ["dense1_D", "dense2_D", "dense_last_D"]

/-- Fully qualified names of the kernel and bias variables of one
    tf.layers.dense call, under the given variable-scope path. -/
def dense_var_names (scope_path : List String) (layer : String) : List String :=
  [String.intercalate "/" (scope_path ++ [layer, "kernel"]),
   String.intercalate "/" (scope_path ++ [layer, "bias"])]

/-- tf.AUTO_REUSE semantics of the variable store: a get-or-create of a fully
    qualified variable name adds it only if it does not already exist. -/
def get_or_create (store : List String) (name : String) : List String :=
  if store.contains name then store else store ++ [name]

/-- One call of BaseModel._build_discriminator inside the enclosing variable
    scope outer_scope: it opens variable_scope("discriminator",
    reuse=tf.AUTO_REUSE) and builds the three dense layers there.  Returns the
    updated store and the variable names this call reads or creates. -/
def build_discriminator_vars (store : List String) (outer_scope : List String) :
    List String × List String :=
  let disc_scope := outer_scope ++ ["discriminator"]
  let names := disc_layer_names.flatMap (dense_var_names disc_scope)
  (names.foldl get_or_create store, names)

/-- The scope or "name" idiom of build_graph. -/
def scope_or (scope : Option String) (dflt : String) : String := scope.getD dflt

/-- The discriminator variables touched by the four _build_discriminator calls
    of one build_graph invocation, plus the final variable store. -/
structure DiscVars where
  store : List String
  vars_s2s : List String
  vars_t2t : List String
  vars_s2t : List String
  vars_t2s : List String

/-- Variable-scope bookkeeping of BaseModel.build_graph (model.py lines
    359-403): the two autoencoding discriminator calls happen inside
    variable_scope(scope or "dynamic_seq2seq") / variable_scope(scope or
    "auto"), and the two cross-pass calls inside variable_scope(scope or
    "dynamic_seq2seq") / variable_scope(scope or "cross"), in source order
    s2s, t2t, s2t, t2s. -/
def build_graph_disc_vars (scope : Option String) : DiscVars :=
  let auto_scope := [scope_or scope "dynamic_seq2seq", scope_or scope "auto"]
  let cross_scope := [scope_or scope "dynamic_seq2seq", scope_or scope "cross"]
  let r1 := build_discriminator_vars [] auto_scope
  let r2 := build_discriminator_vars r1.1 auto_scope
  let r3 := build_discriminator_vars r2.1 cross_scope
  let r4 := build_discriminator_vars r3.1 cross_scope
  ⟨r4.1, r1.2, r2.2, r3.2, r4.2⟩

/-- Whether the pattern occurs at the head of the character list. -/
def starts_with_chars : List Char → List Char → Bool
  | _, [] => true
  | [], _ :: _ => false
  | c :: cs, p :: ps => c = p && starts_with_chars cs ps

/-- Whether the pattern occurs anywhere in the character list. -/
def contains_chars : List Char → List Char → Bool
  | [], pat => pat.isEmpty
  | c :: cs, pat => starts_with_chars (c :: cs) pat || contains_chars cs pat

/-- tf.trainable_variables(scope=".*discriminator.*") filters variables with
    re.match, and with the leading and trailing ".*" this matches exactly the
    variable names containing the substring "discriminator". -/
def name_matches_discriminator (name : String) : Bool :=
  contains_chars name.toList "discriminator".toList

/-- params_D = tf.trainable_variables(scope=".*discriminator.*")
    (model.py line 163), as a filter over all trainable variable names. -/
def params_D (all_vars : List String) : List String :=
  all_vars.filter name_matches_discriminator

/-- params_ae = list(set(tf.trainable_variables()) - set(params_D))
    (model.py line 164): the complement of params_D. -/
def params_ae (all_vars : List String) : List String :=
  all_vars.filter (fun v => !(name_matches_discriminator v))

/-- The per-row masked cross-entropy sum of BaseModel._compute_loss: the row
    holds the per-position cross-entropy values of one batch element (max_time
    entries) and target_weights = tf.sequence_mask(target_len, max_time) keeps
    exactly the positions before target_len. -/
def masked_crossent_row (crossent_row : List ℚ) (target_len : ℕ) : ℚ :=
  (crossent_row.take target_len).sum

/-- tf.reduce_sum(crossent * target_weights) of BaseModel._compute_loss
    (model.py lines 653-661): rows are batch elements, paired with the
    corresponding entry of iterator.target_sequence_length. -/
def masked_crossent_sum (crossent : List (List ℚ)) (target_lens : List ℕ) : ℚ :=
  ((crossent.zip target_lens).map (fun p => masked_crossent_row p.1 p.2)).sum

/-- BaseModel._compute_loss (model.py lines 647-662): the masked cross-entropy
    sum divided by tf.to_float(self.batch_size). -/
def compute_loss (crossent : List (List ℚ)) (target_lens : List ℕ)
    (batch_size : ℕ) : ℚ :=
  masked_crossent_sum crossent target_lens / (batch_size : ℚ)

/-- The length data of one iterator_utils.BatchedInput instance. -/
structure BatchedInput where
  source_sequence_length : List ℕ
  target_sequence_length : List ℕ

/-- The data feeding the loss stage of build_graph: the four iterators passed
    to BaseModel.__init__ and the per-token cross-entropy values derived from
    the logits of each pass. -/
structure LossModel where
  iterator_s2s : BatchedInput
  iterator_t2t : BatchedInput
  iterator_s2t : BatchedInput
  iterator_t2s : BatchedInput
  crossent_s2s : List (List ℚ)
  crossent_t2t : List (List ℚ)
  crossent_s2t : List (List ℚ)
  crossent_t2s : List (List ℚ)

/-- self.batch_size = tf.size(self.iterator_s2s.source_sequence_length)
    (model.py line 121): the number of entries of the s2s source-length
    vector, whatever the other iterators hold. -/
def LossModel.batch_size (m : LossModel) : ℕ :=
  m.iterator_s2s.source_sequence_length.length

/-- loss_auto_s2s = self._compute_loss(logits_s2s, self.iterator_s2s)
    (model.py line 421). -/
def LossModel.loss_auto_s2s (m : LossModel) : ℚ :=
  compute_loss m.crossent_s2s m.iterator_s2s.target_sequence_length m.batch_size

/-- loss_auto_t2t = self._compute_loss(logits_t2t, self.iterator_t2t)
    (model.py line 422). -/
def LossModel.loss_auto_t2t (m : LossModel) : ℚ :=
  compute_loss m.crossent_t2t m.iterator_t2t.target_sequence_length m.batch_size

/-- loss_cross_s2t = self._compute_loss(logits_s2t, self.iterator_s2t)
    (model.py line 424). -/
def LossModel.loss_cross_s2t (m : LossModel) : ℚ :=
  compute_loss m.crossent_s2t m.iterator_s2t.target_sequence_length m.batch_size

/-- loss_cross_t2s = self._compute_loss(logits_t2s, self.iterator_t2s)
    (model.py line 425). -/
def LossModel.loss_cross_t2s (m : LossModel) : ℚ :=
  compute_loss m.crossent_t2s m.iterator_t2s.target_sequence_length m.batch_size

/-- A concrete model whose t2t iterator has batch size 2 while the s2s
    iterator has batch size 1. -/
def model_example : LossModel where
  iterator_s2s := ⟨[3], [1]⟩
  iterator_t2t := ⟨[3, 3], [1, 1]⟩
  iterator_s2t := ⟨[], []⟩
  iterator_t2s := ⟨[], []⟩
  crossent_s2s := [[1]]
  crossent_t2t := [[1], [1]]
  crossent_s2t := []
  crossent_t2s := []

/-- The (start_decay_step, decay_steps, decay_factor) triple computed by
    BaseModel._get_learning_rate_decay (model.py lines 251-271), or the raised
    ValueError for an unknown nonempty decay scheme.  Python int() on a
    nonnegative float quotient is natural-number division. -/
def get_lr_decay_params (decay_scheme : String) (num_train_steps : ℕ) :
    Except String (ℕ × ℕ × ℚ) :=
  if decay_scheme = "luong5" then
    let start_decay_step := num_train_steps / 2
    .ok (start_decay_step, (num_train_steps - start_decay_step) / 5, 0.5)
  else if decay_scheme = "luong10" then
    let start_decay_step := num_train_steps / 2
    .ok (start_decay_step, (num_train_steps - start_decay_step) / 10, 0.5)
  else if decay_scheme = "luong234" then
    let start_decay_step := num_train_steps * 2 / 3
    .ok (start_decay_step, (num_train_steps - start_decay_step) / 4, 0.5)
  else if decay_scheme = "" then
    .ok (num_train_steps, 0, 1.0)
  else .error ("Unknown decay scheme " ++ decay_scheme)

/-- The t2t branch of BaseModel._get_learning_rate_warmup (model.py lines
    226-249): warmup_factor = exp(log(0.01) / warmup_steps), and for
    step < warmup_steps the rate is warmup_factor ** (warmup_steps - step)
    times the base rate, else the base rate.  The subtraction is only used on
    the step < warmup_steps branch, where it is nonnegative. -/
noncomputable def get_lr_warmup_t2t (warmup_steps : ℕ) (base_rate : ℝ)
    (step : ℕ) : ℝ :=
  let warmup_factor := Real.exp (Real.log 0.01 / (warmup_steps : ℝ))
  let inv_decay := warmup_factor ^ (((warmup_steps - step : ℕ)) : ℝ)
  if step < warmup_steps then inv_decay * base_rate else base_rate

/-- BaseModel._get_learning_rate_decay (model.py lines 278-285): below
    start_decay_step the rate is unchanged, above it
    tf.train.exponential_decay with staircase=True multiplies by
    decay_factor ** ((step - start_decay_step) div decay_steps). -/
noncomputable def get_lr_decay (start_decay_step decay_steps : ℕ)
    (decay_factor : ℚ) (lr : ℝ) (step : ℕ) : ℝ :=
  if step < start_decay_step then lr
  else lr * (decay_factor : ℝ) ^ ((step - start_decay_step) / decay_steps)

/-- The composed learning-rate schedule built in BaseModel.__init__ (model.py
    lines 169-173): the base rate goes through _get_learning_rate_warmup and
    the result through _get_learning_rate_decay, both evaluated against the
    global step; unknown schemes surface the raised ValueError. -/
noncomputable def learning_rate_at (warmup_scheme decay_scheme : String)
    (warmup_steps num_train_steps : ℕ) (base_rate : ℝ) (step : ℕ) :
    Except String ℝ :=
  if warmup_scheme = "t2t" then
    (get_lr_decay_params decay_scheme num_train_steps).map
      (fun p => get_lr_decay p.1 p.2.1 p.2.2
        (get_lr_warmup_t2t warmup_steps base_rate step) step)
  else .error ("Unknown warmup scheme " ++ warmup_scheme)

/-- The final state returned by Model._build_encoder for encoder_type="bi"
    (model.py lines 791-799): either the raw two-element (forward, backward)
    state tuple of tf.nn.bidirectional_dynamic_rnn, or the flat interleaved
    tuple built by the else branch. -/
inductive EncoderFinalState (α : Type) where
  | rawPair (fwd bwd : List α) : EncoderFinalState α
  | interleaved (states : List α) : EncoderFinalState α
  deriving DecidableEq

/-- The loop "for layer_id in range(num_bi_layers): append fwd[layer_id];
    append bwd[layer_id]" (model.py lines 795-799), rendered under the
    invariant that both per-layer state lists have num_bi_layers entries. -/
def bi_concat_states {α : Type} : List α → List α → List α
  | f :: fs, b :: bs => f :: b :: bi_concat_states fs bs
  | _, _ => []

/-- num_bi_layers = int(num_layers / 2) (model.py line 777). -/
def num_bi_layers (num_encoder_layers : ℕ) : ℕ := num_encoder_layers / 2

/-- The encoder_state selection of the "bi" branch of Model._build_encoder:
    the raw (fwd, bwd) pair when num_bi_layers == 1, the interleaved flat
    tuple otherwise. -/
def bi_encoder_state {α : Type} (num_encoder_layers : ℕ) (fwd bwd : List α) :
    EncoderFinalState α :=
  if num_bi_layers num_encoder_layers = 1 then .rawPair fwd bwd
  else .interleaved (bi_concat_states fwd bwd)

/-- The hyperparameters consulted by the configuration checks that raise
    ValueError during model construction. -/
structure Hparams where
  encoder_type : String
  warmup_scheme : String
  decay_scheme : String
  num_train_steps : ℕ
  attention : Bool

/-- The encoder_type dispatch of Model._build_encoder (model.py lines
    763-801): "uni" and "bi" build an encoder, anything else raises
    ValueError. -/
def build_encoder_check (encoder_type : String) : Except String Unit :=
  if encoder_type = "uni" then .ok ()
  else if encoder_type = "bi" then .ok ()
  else .error ("Unknown encoder_type " ++ encoder_type)

/-- Model._build_decoder_cell (model.py lines 849-850) raises ValueError when
    hparams.attention is set, since the basic decoder has no attention. -/
def build_decoder_cell_check (attention : Bool) : Except String Unit :=
  if attention then .error "BasicModel does not support attention."
  else .ok ()

/-- The warmup_scheme dispatch of BaseModel._get_learning_rate_warmup
    (model.py lines 237-243): only "t2t" is known. -/
def warmup_scheme_check (warmup_scheme : String) : Except String Unit :=
  if warmup_scheme = "t2t" then .ok ()
  else .error ("Unknown warmup scheme " ++ warmup_scheme)

/-- The decay_scheme dispatch of BaseModel._get_learning_rate_decay: the
    parameter computation succeeds or raises. -/
def decay_scheme_check (decay_scheme : String) (num_train_steps : ℕ) :
    Except String Unit :=
  (get_lr_decay_params decay_scheme num_train_steps).map (fun _ => ())

/-- The configuration checks crossed by one BaseModel.build_graph call, in
    source order: encoders s2s and t2t, decoders s2s and t2t (each decoder
    calls _build_decoder_cell), then the cross encoders s2t and t2s and
    decoders s2t and t2s.  The first raised error aborts construction. -/
def build_graph_check (h : Hparams) : Except String Unit := do
  build_encoder_check h.encoder_type
  build_encoder_check h.encoder_type
  build_decoder_cell_check h.attention
  build_decoder_cell_check h.attention
  build_encoder_check h.encoder_type
  build_encoder_check h.encoder_type
  build_decoder_cell_check h.attention
  build_decoder_cell_check h.attention

/-- The configuration checks crossed by one BaseModel.__init__ call:
    build_graph runs in every mode (model.py line 132); the learning-rate
    warmup and decay schedules are only built when mode is TRAIN (model.py
    lines 168-173). -/
def constructor_check (mode : Mode) (h : Hparams) : Except String Unit := do
  build_graph_check h
  if mode = Mode.TRAIN then do
    warmup_scheme_check h.warmup_scheme
    decay_scheme_check h.decay_scheme h.num_train_steps
  else pure ()

/-- An EVAL-mode configuration with a valid encoder and an invalid warmup
    scheme. -/
def hparams_eval_example : Hparams :=
  ⟨"uni", "bogus", "", 1000, false⟩

/-- One possible Python failure of a method call in this embedding: the
    assert at the top of the method, or an AttributeError when reading a
    missing attribute of self. -/
inductive PyError where
  | assertionError : PyError
  | attributeError (name : String) : PyError
  deriving DecidableEq

/-- The attribute names assigned on self by BaseModel.__init__ (model.py
    lines 67-224), in source order, including the mode-dependent branches.
    Local variables such as params_D are not attributes of self. -/
def init_attrs (mode : Mode) : List String :=
  ["iterator_s2s", "iterator_t2t", "iterator_s2t", "iterator_t2s",
   "mode", "src_vocab_table", "tgt_vocab_table",
   "src_vocab_size", "tgt_vocab_size", "num_gpus", "time_major",
   "single_cell_fn", "num_encoder_layers", "num_decoder_layers",
   "num_encoder_residual_layers", "num_decoder_residual_layers",
   "embedding_src", "embedding_tgt", "batch_size",
   "output_layer_src", "output_layer_tgt"]
  ++ (if mode = Mode.TRAIN then
        ["train_loss_ae", "train_loss_D", "word_count_s2s"]
      else if mode = Mode.EVAL then
        ["eval_loss"]
      else
        ["infer_logits_src", "final_context_state_src", "sample_id_src",
         "infer_logits_tgt", "final_context_state_tgt", "sample_id_tgt",
         "infer_cross_logits_src", "final_context_state_cross_src",
         "sample_id_cross_src",
         "infer_cross_logits_tgt", "final_context_state_cross_tgt",
         "sample_id_cross_tgt",
         "sample_words_src", "sample_words_tgt",
         "sample_words_src_cross", "sample_words_tgt_cross"])
  ++ (if mode = Mode.INFER then [] else
        ["predict_count_s2s", "predict_count_t2t"])
  ++ ["global_step"]
  ++ (if mode = Mode.TRAIN then
        ["learning_rate", "grad_norm_ae", "update_ae", "train_summary",
         "grad_norm_D", "update_D", "train_summary_D"]
      else [])
  ++ (if mode = Mode.INFER then
        ["infer_summary_src", "infer_summary_tgt",
         "infer_summary_src_cross", "infer_summary_tgt_cross"]
      else [])
  ++ ["saver"]

/-- The attributes of self read by BaseModel.infer_and_source (model.py lines
    684-691) after its assert, in Python evaluation order. -/
def infer_and_source_reads : List String :=
  ["iterator_src", "infer_logits_src", "infer_summary_src", "sample_id_src",
   "sample_words_src",
   "iterator_tgt", "infer_logits_tgt", "infer_summary_tgt", "sample_id_tgt",
   "sample_words_tgt"]

/-- The first attribute of a read list that the object does not have. -/
def first_missing_attr (attrs reads : List String) : Option String :=
  reads.find? (fun r => !(attrs.contains r))

/-- BaseModel.infer_and_source on a model constructed in the given mode:
    assert self.mode == INFER first, then build the fetch list, which raises
    AttributeError at the first missing attribute. -/
def infer_and_source (mode : Mode) : Except PyError Unit :=
  if mode = Mode.INFER then
    match first_missing_attr (init_attrs mode) infer_and_source_reads with
    | some n => .error (.attributeError n)
    | none => .ok ()
  else .error .assertionError

/-- Whether a method outcome is an AttributeError. -/
def is_attribute_error : Except PyError Unit → Bool
  | .error (.attributeError _) => true
  | _ => false

lemma length_filter_partition (p : String → Bool) (l : List String) :
    (l.filter p).length + (l.filter (fun a => !(p a))).length = l.length := by
  induction l with
  | nil => rfl
  | cons a t ih => by_cases h : p a <;> simp [List.filter_cons, h] <;> omega

/-- C1 counterexample: at a concrete loss environment the objectives wired by
    the code differ from the claimed aggregation: train_loss_ae is not the
    same-language reconstruction sum plus the four flipped-label losses, and
    train_loss_D is not the sum of the four plain classification losses. -/
theorem c1_train_loss_assignment_counterexample :
    train_loss_ae ce_loss_inputs ≠
      (ce_loss_inputs.compute_loss .s2s + ce_loss_inputs.compute_loss .t2t)
      + (ce_loss_inputs.compute_discriminator_loss .s2s true
         + ce_loss_inputs.compute_discriminator_loss .t2t false
         + ce_loss_inputs.compute_discriminator_loss .s2t true
         + ce_loss_inputs.compute_discriminator_loss .t2s false)
    ∧ train_loss_D ce_loss_inputs ≠
      ce_loss_inputs.compute_discriminator_loss .s2s false
      + ce_loss_inputs.compute_discriminator_loss .s2t false
      + ce_loss_inputs.compute_discriminator_loss .t2t true
      + ce_loss_inputs.compute_discriminator_loss .t2s true := by
  constructor
  · norm_num [train_loss_ae, build_graph_losses, ce_loss_inputs, d_label]
  · norm_num [train_loss_D, build_graph_losses, ce_loss_inputs, d_label]

/-- C1, amended: for every model in TRAIN or EVAL mode, train_loss_ae equals
    the two same-language reconstruction losses plus the four plain
    (unflipped-label) discriminator classification losses plus the two
    cross-pass reconstruction losses, and train_loss_D equals the sum of the
    four adversarial (flipped-label) discriminator losses. -/
theorem c1_train_loss_assignment_amended (L : LossInputs) :
    train_loss_ae L =
      (L.compute_loss .s2s + L.compute_loss .t2t)
      + (L.compute_discriminator_loss .s2s false
         + L.compute_discriminator_loss .s2t false
         + L.compute_discriminator_loss .t2t true
         + L.compute_discriminator_loss .t2s true)
      + (L.compute_loss .s2t + L.compute_loss .t2s)
    ∧ train_loss_D L =
      L.compute_discriminator_loss .s2s true
      + L.compute_discriminator_loss .s2t true
      + L.compute_discriminator_loss .t2t false
      + L.compute_discriminator_loss .t2s false :=
  ⟨rfl, rfl⟩

/-- C2 counterexample: starting from global step 0, one train() call leaves
    the step at 2, not 1, and running update_D alone increments it. -/
theorem c2_global_step_counterexample :
    train_global_step 0 = 2 ∧ train_global_step 0 ≠ 0 + 1
    ∧ update_D_step 0 = 1 ∧ update_D_step 0 ≠ 0 := by
  decide

/-- C2, amended: both update operations pass global_step to apply_gradients,
    so update_ae and update_D each increment the shared global step by one and
    one train() call increments it by exactly 2. -/
theorem c2_global_step_amended (step : ℕ) :
    update_ae_step step = step + 1 ∧ update_D_step step = step + 1
    ∧ train_global_step step = step + 2 :=
  ⟨rfl, rfl, rfl⟩

/-- C3 counterexample: in the default-scope model the discriminator weights
    used by the s2s (autoencoding) pass are not the ones used by the s2t
    (cross) pass, and the variable store holds more than one weight set. -/
theorem c3_discriminator_sharing_counterexample :
    (build_graph_disc_vars none).vars_s2s ≠ (build_graph_disc_vars none).vars_s2t
    ∧ (build_graph_disc_vars none).store ≠ (build_graph_disc_vars none).vars_s2s := by
  decide

/-- C3, amended: a default-scope model creates exactly two discriminator
    weight sets: the two autoencoding passes share the set under the
    "dynamic_seq2seq/auto" scope, the two cross passes share the distinct set
    under the "dynamic_seq2seq/cross" scope, and the variable store holds
    precisely these two sets. -/
theorem c3_discriminator_sharing_amended :
    (build_graph_disc_vars none).vars_t2t = (build_graph_disc_vars none).vars_s2s
    ∧ (build_graph_disc_vars none).vars_t2s = (build_graph_disc_vars none).vars_s2t
    ∧ (build_graph_disc_vars none).vars_s2s ≠ (build_graph_disc_vars none).vars_s2t
    ∧ (build_graph_disc_vars none).store =
        (build_graph_disc_vars none).vars_s2s ++ (build_graph_disc_vars none).vars_s2t := by
  refine ⟨rfl, rfl, by decide, rfl⟩

/-- C4: for every constructed model, the name-matched discriminator parameter
    list and its complement partition the trainable parameters: membership in
    the full list is equivalent to membership in exactly one of the two parts,
    the parts are disjoint, and their sizes add up. -/
theorem c4_param_partition (all_vars : List String) (v : String) :
    (v ∈ all_vars ↔ (v ∈ params_D all_vars ∨ v ∈ params_ae all_vars))
    ∧ ¬(v ∈ params_D all_vars ∧ v ∈ params_ae all_vars)
    ∧ (params_D all_vars).length + (params_ae all_vars).length
        = all_vars.length := by
  refine ⟨?_, ?_, length_filter_partition _ _⟩
  · simp only [params_D, params_ae, List.mem_filter]
    by_cases h : name_matches_discriminator v <;> simp [h]
  · simp only [params_D, params_ae, List.mem_filter]
    rintro ⟨⟨_, h1⟩, _, h2⟩
    simp [h1] at h2

/-- C5: _compute_loss is the sequence-masked cross-entropy sum divided by the
    batch size (not by the number of unmasked tokens), and therefore the loss
    of a batch duplicated to twice the size equals the loss of the original
    batch. -/
theorem c5_loss_normalization (crossent : List (List ℚ)) (target_lens : List ℕ)
    (B : ℕ) (hlen : crossent.length = target_lens.length) (hB : B ≠ 0) :
    compute_loss crossent target_lens B
      = masked_crossent_sum crossent target_lens / (B : ℚ)
    ∧ compute_loss (crossent ++ crossent) (target_lens ++ target_lens) (2 * B)
      = compute_loss crossent target_lens B := by
  refine ⟨rfl, ?_⟩
  have hz : (crossent ++ crossent).zip (target_lens ++ target_lens)
      = crossent.zip target_lens ++ crossent.zip target_lens :=
    List.zip_append hlen
  have hBQ : ((B : ℚ)) ≠ 0 := Nat.cast_ne_zero.mpr hB
  unfold compute_loss masked_crossent_sum
  rw [hz, List.map_append, List.sum_append]
  push_cast
  field_simp
  ring

/-- Witness for C5 at a concrete batch of size 1. -/
theorem c5_loss_normalization_witness :
    compute_loss [[(1 : ℚ)]] [1] 1
      = masked_crossent_sum [[(1 : ℚ)]] [1] / ((1 : ℕ) : ℚ)
    ∧ compute_loss ([[(1 : ℚ)]] ++ [[(1 : ℚ)]]) ([1] ++ [1]) (2 * 1)
      = compute_loss [[(1 : ℚ)]] [1] 1 :=
  c5_loss_normalization [[(1 : ℚ)]] [1] 1 rfl (by decide)

lemma warmup_factor_pow_hundred :
    Real.exp (Real.log 0.01 / (100 : ℝ)) ^ ((100 : ℝ)) = 0.01 := by
  rw [← Real.exp_mul, div_mul_cancel₀ _ (by norm_num : (100 : ℝ) ≠ 0),
    Real.exp_log (by norm_num : (0 : ℝ) < 0.01)]

/-- C6: the composed warmup and decay schedule with warmup_scheme "t2t",
    warmup_steps 100, decay_scheme "luong5" and num_train_steps 1000 yields
    base_rate * 0.01 at step 0, base_rate at steps 100 and 500, and
    base_rate * 0.5 at step 600 = 500 + decay_steps, where the decay
    parameters are start 500, decay_steps (1000 - 500) / 5 = 100 and
    staircase factor 0.5. -/
theorem c6_learning_rate_schedule (base_rate : ℝ) :
    learning_rate_at "t2t" "luong5" 100 1000 base_rate 0
      = .ok (0.01 * base_rate)
    ∧ learning_rate_at "t2t" "luong5" 100 1000 base_rate 100 = .ok base_rate
    ∧ learning_rate_at "t2t" "luong5" 100 1000 base_rate 500 = .ok base_rate
    ∧ learning_rate_at "t2t" "luong5" 100 1000 base_rate 600
      = .ok (base_rate * 0.5)
    ∧ get_lr_decay_params "luong5" 1000 = .ok (500, 100, (0.5 : ℚ)) := by
  have hp : get_lr_decay_params "luong5" 1000
      = Except.ok (500, 100, (0.5 : ℚ)) := rfl
  refine ⟨?_, ?_, ?_, ?_, hp⟩
  · simp [learning_rate_at, hp, Except.map, get_lr_decay, get_lr_warmup_t2t]
    rw [warmup_factor_pow_hundred]
    exact Or.inl rfl
  · simp [learning_rate_at, hp, Except.map, get_lr_decay, get_lr_warmup_t2t]
  · simp [learning_rate_at, hp, Except.map, get_lr_decay, get_lr_warmup_t2t]
  · simp [learning_rate_at, hp, Except.map, get_lr_decay, get_lr_warmup_t2t]

/-- C7: for encoder_type "bi", the final state is the raw (fwd, bwd) pair
    exactly when the bidirectional layer count num_encoder_layers / 2 is 1,
    and otherwise the flat interleaved tuple; with 4 encoder layers the state
    is [fwd0, bwd0, fwd1, bwd1] and with 2 layers it is the raw pair. -/
theorem c7_bi_encoder_state (α : Type) (n : ℕ) (fwd bwd : List α)
    (f0 f1 b0 b1 : α) :
    (num_bi_layers n = 1 → bi_encoder_state n fwd bwd = .rawPair fwd bwd)
    ∧ (num_bi_layers n ≠ 1 →
        bi_encoder_state n fwd bwd
          = .interleaved (bi_concat_states fwd bwd))
    ∧ bi_encoder_state 4 [f0, f1] [b0, b1]
      = .interleaved [f0, b0, f1, b1]
    ∧ bi_encoder_state 2 [f0] [b0] = .rawPair [f0] [b0] := by
  refine ⟨fun h => ?_, fun h => ?_, ?_, ?_⟩
  · simp [bi_encoder_state, h]
  · simp [bi_encoder_state, h]
  · simp [bi_encoder_state, num_bi_layers, bi_concat_states]
  · simp [bi_encoder_state, num_bi_layers]

/-- Witness for C7 at concrete layer counts 2 and 6. -/
theorem c7_bi_encoder_state_witness :
    bi_encoder_state 2 [0] [1] = EncoderFinalState.rawPair [0] [1]
    ∧ bi_encoder_state 6 [0, 1, 2] [3, 4, 5]
      = EncoderFinalState.interleaved [0, 3, 1, 4, 2, 5] :=
  ⟨(c7_bi_encoder_state ℕ 2 [0] [1] 0 0 0 0).1 rfl,
   (c7_bi_encoder_state ℕ 6 [0, 1, 2] [3, 4, 5] 0 0 0 0).2.1 (by decide)⟩

lemma except_unit_seq_ok_iff (a b : Except String Unit) :
    ((do a; b) = Except.ok ()) ↔ (a = .ok () ∧ b = .ok ()) := by
  cases a with
  | error e => simp [Bind.bind, Except.bind]
  | ok u => cases u; simp [Bind.bind, Except.bind]

lemma build_encoder_check_ok_iff (t : String) :
    build_encoder_check t = .ok () ↔ (t = "uni" ∨ t = "bi") := by
  unfold build_encoder_check
  split_ifs <;> simp_all

lemma build_decoder_cell_check_ok_iff (a : Bool) :
    build_decoder_cell_check a = .ok () ↔ a = false := by
  cases a <;> simp [build_decoder_cell_check]

lemma warmup_scheme_check_ok_iff (s : String) :
    warmup_scheme_check s = .ok () ↔ s = "t2t" := by
  unfold warmup_scheme_check
  split_ifs <;> simp_all

lemma decay_scheme_check_ok_iff (s : String) (n : ℕ) :
    decay_scheme_check s n = .ok ()
      ↔ (s = "luong5" ∨ s = "luong10" ∨ s = "luong234" ∨ s = "") := by
  unfold decay_scheme_check get_lr_decay_params
  split_ifs <;> simp_all [Except.map]

lemma build_graph_check_ok_iff (h : Hparams) :
    build_graph_check h = .ok ()
      ↔ ((h.encoder_type = "uni" ∨ h.encoder_type = "bi")
          ∧ h.attention = false) := by
  unfold build_graph_check
  simp only [except_unit_seq_ok_iff, build_encoder_check_ok_iff,
    build_decoder_cell_check_ok_iff]
  tauto

/-- C8 counterexample: an EVAL-mode model with encoder_type "uni", no
    attention and warmup_scheme "bogus" constructs without error even though
    its warmup scheme is not "t2t". -/
theorem c8_config_errors_counterexample :
    constructor_check Mode.EVAL hparams_eval_example = Except.ok ()
    ∧ hparams_eval_example.warmup_scheme ≠ "t2t" :=
  ⟨rfl, by decide⟩

/-- C8, amended: construction fails with a raised configuration error exactly
    when encoder_type is neither "uni" nor "bi" or attention is set with the
    basic decoder (these are checked in every mode), or, in TRAIN mode only,
    when warmup_scheme is not "t2t" or decay_scheme is nonempty and none of
    luong5/luong10/luong234. -/
theorem c8_config_errors_amended (mode : Mode) (h : Hparams) :
    constructor_check mode h = .ok ()
      ↔ ((h.encoder_type = "uni" ∨ h.encoder_type = "bi")
          ∧ h.attention = false
          ∧ (mode = Mode.TRAIN →
              h.warmup_scheme = "t2t"
                ∧ (h.decay_scheme = "luong5" ∨ h.decay_scheme = "luong10"
                    ∨ h.decay_scheme = "luong234" ∨ h.decay_scheme = ""))) := by
  unfold constructor_check
  cases mode <;>
    simp [except_unit_seq_ok_iff, build_graph_check_ok_iff,
      warmup_scheme_check_ok_iff, decay_scheme_check_ok_iff,
      pure, Except.pure, and_assoc]

/-- C9: every one of the four reconstruction losses is normalized by the
    model-level batch size taken from the s2s source-length vector; at a
    model whose t2t iterator has a different batch size, the t2t loss differs
    from the value normalized by its own batch size. -/
theorem c9_shared_batch_size_normalization :
    (∀ m : LossModel,
      m.loss_auto_s2s = masked_crossent_sum m.crossent_s2s
          m.iterator_s2s.target_sequence_length
          / (m.iterator_s2s.source_sequence_length.length : ℚ)
      ∧ m.loss_auto_t2t = masked_crossent_sum m.crossent_t2t
          m.iterator_t2t.target_sequence_length
          / (m.iterator_s2s.source_sequence_length.length : ℚ)
      ∧ m.loss_cross_s2t = masked_crossent_sum m.crossent_s2t
          m.iterator_s2t.target_sequence_length
          / (m.iterator_s2s.source_sequence_length.length : ℚ)
      ∧ m.loss_cross_t2s = masked_crossent_sum m.crossent_t2s
          m.iterator_t2s.target_sequence_length
          / (m.iterator_s2s.source_sequence_length.length : ℚ))
    ∧ model_example.loss_auto_t2t
        ≠ masked_crossent_sum model_example.crossent_t2t
            model_example.iterator_t2t.target_sequence_length
            / (model_example.iterator_t2t.source_sequence_length.length : ℚ) := by
  refine ⟨fun m => ⟨rfl, rfl, rfl, rfl⟩, ?_⟩
  norm_num [LossModel.loss_auto_t2t, LossModel.batch_size, model_example,
    compute_loss, masked_crossent_sum, masked_crossent_row]

/-- C10 counterexample: on a TRAIN-mode model, infer_and_source fails, but
    with the assertion on the mode, not with an AttributeError. -/
theorem c10_infer_and_source_counterexample :
    is_attribute_error (infer_and_source Mode.TRAIN) = false
    ∧ infer_and_source Mode.TRAIN = .error .assertionError :=
  ⟨rfl, rfl⟩

/-- C10, amended: the constructor never assigns iterator_src or iterator_tgt,
    so on an INFER-mode model infer_and_source raises AttributeError at
    iterator_src; on TRAIN- and EVAL-mode models the call fails earlier, at
    the assert on the mode. -/
theorem c10_infer_and_source_amended :
    infer_and_source Mode.INFER = .error (.attributeError "iterator_src")
    ∧ infer_and_source Mode.TRAIN = .error .assertionError
    ∧ infer_and_source Mode.EVAL = .error .assertionError
    ∧ "iterator_src" ∉ init_attrs Mode.INFER
    ∧ "iterator_tgt" ∉ init_attrs Mode.INFER :=
  ⟨rfl, rfl, rfl, by decide, by decide⟩
